import Mathlib

/-!
# Verification of the `pinned-sync` synchronization primitives

Shallow embedding of the core algorithms of the `pinned-sync` crate:
the poison-propagation protocol (`src/sys_common/poison.rs`), the
tri-state lazy-initialization guard (`src/sys_common/init_assert.rs`),
the unix mutex and reader-writer lock backends (`src/sys/unix/mutex.rs`,
`src/sys/unix/rwlock.rs`), the public `Mutex`/`RwLock` wrappers
(`src/mutex.rs`, `src/rwlock.rs`), the barrier rendezvous
(`src/barrier.rs`) and the condition-variable timeout loop
(`src/condvar.rs`).

Machine integers: `usize` quantities that may wrap are modelled as `Nat`
with explicit `% 2 ^ 64`; the reader count (a `usize` mutated with
wrapping `fetch_add`/`fetch_sub`) is modelled as `Int` so that the claim
that it never goes negative (never underflows) is meaningful.
Fallible or diverging code is modelled with explicit outcome types:
a constructor per exit path (returned value, panic, blocked call).
-/

namespace PinnedSync

/-! ## Error constants of the unix backend (`libc`, Linux values) -/

/-- `libc::EAGAIN` on Linux. -/
def EAGAIN : Int := 11

/-- `libc::EDEADLK` on Linux. -/
def EDEADLK : Int := 35

/-- `libc::EBUSY` on Linux, returned by `pthread_mutex_trylock` on a held
mutex. -/
def EBUSY : Int := 16

/-! ## Poison state (`src/sys_common/poison.rs`)

`Flag` is one `AtomicBool`; a poison `Guard` (the per-acquisition token)
records `thread::panicking()` at acquisition time.  `LockResult` mirrors
`std::sync::LockResult`: both the `Ok` and the `Err(PoisonError(_))`
case carry the same payload type. -/

/-- The per-acquisition poison token `poison::Guard`: records whether the
acquiring thread was already unwinding when it took the lock. -/
structure PoisonGuard where
  panicking : Bool
  deriving DecidableEq, Repr

/-- `std::sync::LockResult<T>`: `ok` or `poisoned`, each carrying the
payload (a `PoisonError` always wraps the would-be success value). -/
inductive LockResult (α : Type) where
  | ok (a : α)
  | poisoned (a : α)
  deriving DecidableEq, Repr

namespace LockResult

/-- The payload carried by either constructor (`PoisonError::into_inner`
on the error side). -/
def payload : LockResult α → α
  | .ok a => a
  | .poisoned a => a

/-- Whether the result is the `Err(PoisonError(_))` case. -/
def isPoisoned : LockResult α → Bool
  | .ok _ => false
  | .poisoned _ => true

/-- `poison::map_result`: apply `f` to the payload, keeping the tag. -/
def mapResult (f : α → β) : LockResult α → LockResult β
  | .ok a => .ok (f a)
  | .poisoned a => .poisoned (f a)

end LockResult

/-- `Flag::borrow`: build a token recording `thread::panicking()` now
(`panickingNow`); report it as a `PoisonError` exactly when the flag is
already set.  `flag` is the current value of the `failed` atomic. -/
def Flag.borrow (flag : Bool) (panickingNow : Bool) : LockResult PoisonGuard :=
  let ret : PoisonGuard := ⟨panickingNow⟩
  if flag then .poisoned ret else .ok ret

/-- `Flag::done`: the new value of the `failed` atomic after an exclusive
guard is released.  The store to `true` happens exactly when the thread
is unwinding now and was not unwinding when it acquired. -/
def Flag.done (flag : Bool) (guard : PoisonGuard) (panickingNow : Bool) : Bool :=
  if !guard.panicking && panickingNow then true else flag

/-! ## Unix mutex backend (`src/sys/unix/mutex.rs`)

The native `pthread_mutex_t` is constructed `PTHREAD_MUTEX_NORMAL`:
`pthread_mutex_lock` on a mutex held by another thread blocks (it does
not return); `pthread_mutex_trylock` returns `EBUSY` instead.  A native
call is modelled by an outcome that is either a returned error code or
"the call blocks". -/

/-- Outcome of a native pthread call: a returned code, or the call
blocks (does not return while the lock is held by another thread). -/
inductive NativeCall where
  | ret (code : Int)
  | blocks
  deriving DecidableEq, Repr

/-- `pthread_mutex_lock` on a `PTHREAD_MUTEX_NORMAL` mutex:
blocks while another thread holds the mutex, else returns 0. -/
def pthreadMutexLock (heldByOther : Bool) : NativeCall :=
  if heldByOther then .blocks else .ret 0

/-- `pthread_mutex_trylock` on a `PTHREAD_MUTEX_NORMAL` mutex:
returns `EBUSY` while another thread holds the mutex, else 0. -/
def pthreadMutexTrylock (heldByOther : Bool) : NativeCall :=
  if heldByOther then .ret EBUSY else .ret 0

/-- Outcome of `sys::unix::Mutex::try_lock`: a guard, `None`
(surfaced as `WouldBlock` by the public wrapper), or the call blocks. -/
inductive SysTryLock where
  | guard
  | wouldBlock
  | blocks
  deriving DecidableEq, Repr

/-- `sys::unix::Mutex::try_lock` as written in the source: it calls
`pthread_mutex_lock` (not `pthread_mutex_trylock`) and returns
`Some(guard)` when the result is 0, `None` otherwise. -/
def sysMutexTryLock (heldByOther : Bool) : SysTryLock :=
  match pthreadMutexLock heldByOther with
  | .ret r => if r = 0 then .guard else .wouldBlock
  | .blocks => .blocks

/-- Modelled from the spec: the non-blocking `try_lock` the spec
describes — `pthread_mutex_trylock`, returning the guard when the
native call succeeds and `WouldBlock` when the mutex is unavailable. -/
def specMutexTryLock (heldByOther : Bool) : SysTryLock :=
  match pthreadMutexTrylock heldByOther with
  | .ret r => if r = 0 then .guard else .wouldBlock
  | .blocks => .blocks

/-! ## Unix reader-writer lock backend (`src/sys/unix/rwlock.rs`)

The algorithm is a function of the return code of the native call `r` and of
the bookkeeping fields `write_locked : bool` and `num_readers`
(an atomic counter).  Each public operation is modelled as a function
from those inputs to an explicit outcome; the `releasedNative` /
`undidNative` flag records whether the path called `self.unlock()` on
the native lock before panicking / returning `None`. -/

/-- Outcome of `sys::unix::RwLock::read`: a returned read guard, the
`EAGAIN` panic, or the deadlock panic (recording whether the native
lock was released first, which the code does exactly when `r == 0`). -/
inductive ReadOutcome where
  | guard
  | panicMaxReaders
  | panicDeadlock (releasedNative : Bool)
  deriving DecidableEq, Repr

/-- `sys::unix::RwLock::read`, after `pthread_rwlock_rdlock` returned
`r`, with the current `write_locked` field. -/
def rwRead (r : Int) (writeLocked : Bool) : ReadOutcome :=
  if r = EAGAIN then .panicMaxReaders
  else if r = EDEADLK ∨ (r = 0 ∧ writeLocked) then .panicDeadlock (r = 0)
  else .guard

/-- Outcome of `sys::unix::RwLock::write`: a returned write guard or the
deadlock panic (recording whether the native lock was released first). -/
inductive WriteOutcome where
  | guard
  | panicDeadlock (releasedNative : Bool)
  deriving DecidableEq, Repr

/-- `sys::unix::RwLock::write`, after `pthread_rwlock_wrlock` returned
`r`, with the current `write_locked` and `num_readers` fields. -/
def rwWrite (r : Int) (writeLocked : Bool) (numReaders : Int) : WriteOutcome :=
  if r = EDEADLK ∨ (r = 0 ∧ writeLocked) ∨ numReaders ≠ 0 then
    .panicDeadlock (r = 0)
  else .guard

/-- Outcome of a `try_*` operation of the unix rwlock backend: a guard,
or `None` (recording whether a native acquisition that had succeeded was
undone by `self.unlock()` before returning). -/
inductive TryOutcome where
  | guard
  | wouldBlock (undidNative : Bool)
  deriving DecidableEq, Repr

/-- `sys::unix::RwLock::try_read`, after `pthread_rwlock_tryrdlock`
returned `r`, with the current `write_locked` field. -/
def rwTryRead (r : Int) (writeLocked : Bool) : TryOutcome :=
  if r = 0 then
    if writeLocked then .wouldBlock true
    else .guard
  else .wouldBlock false

/-- `sys::unix::RwLock::try_write`, after `pthread_rwlock_trywrlock`
returned `r`, with the current `write_locked` and `num_readers`
fields. -/
def rwTryWrite (r : Int) (writeLocked : Bool) (numReaders : Int) : TryOutcome :=
  if r = 0 then
    if writeLocked ∨ numReaders ≠ 0 then .wouldBlock true
    else .guard
  else .wouldBlock false

/-! ## Reader-writer lock state machine

A transition system over the bookkeeping state of one
`RwLock` instance (`src/sys/unix/rwlock.rs` together with the poison
flag of `src/rwlock.rs`).  The native pthread lock serializes the
operations modelled as steps; each step is the linearized effect of one
acquisition, failed acquisition or guard drop.  `liveRead` counts the
outstanding `ReadGuard`s and `liveWrite` holds the poison token of the
outstanding `RwLockWriteGuard`, so that guard drops can only be taken
when a guard exists.  `numReaders` is `Int` (the `usize` field mutated
with wrapping `fetch_add`/`fetch_sub`): proving it stays nonnegative is
proving the counter never underflows. -/

/-- Bookkeeping state of one `RwLock<T>` instance: the
`write_locked` and `num_readers` fields of `sys::unix::RwLock`, the
poison `Flag` of the public wrapper, and the outstanding guards. -/
structure RwState where
  writeLocked : Bool
  numReaders : Int
  poison : Bool
  liveRead : Nat
  liveWrite : Option PoisonGuard
  deriving DecidableEq, Repr

/-- The state `RwLock::uninit` constructs (after `init`):
`write_locked = false`, `num_readers = 0`, poison flag clear, no
guards. -/
def RwState.initial : RwState :=
  { writeLocked := false, numReaders := 0, poison := false
    liveRead := 0, liveWrite := none }

/-- One linearized operation on a reader-writer lock.  Preconditions are
exactly the checks the source performs (for acquisitions) or the
existence of the guard being dropped (for releases). -/
inductive RwStep : RwState → RwState → Prop where
  /-- `read`/`try_read` success path: the native shared lock was
  granted and the `write_locked` check passed; `num_readers` is
  incremented and a `ReadGuard` is returned. -/
  | readOk (s : RwState) (now : Bool) (h : s.writeLocked = false) :
      RwStep s { s with numReaders := s.numReaders + 1,
                        liveRead := s.liveRead + 1 }
  /-- `read` divergence path: the native call granted a reader while
  `write_locked` was set; the code unlocks the native lock and panics,
  leaving the bookkeeping unchanged. -/
  | readPanic (s : RwState) (h : s.writeLocked = true) : RwStep s s
  /-- `write`/`try_write` success path: the native exclusive lock was
  granted and both secondary checks passed; `write_locked` is set and a
  `RwLockWriteGuard` carrying the poison token is returned. -/
  | writeOk (s : RwState) (now : Bool) (h₁ : s.writeLocked = false)
      (h₂ : s.numReaders = 0) :
      RwStep s { s with writeLocked := true,
                        liveWrite := some ⟨now⟩ }
  /-- `write` divergence path: a secondary check failed; the code
  unlocks the native lock (when it had been granted) and panics,
  leaving the bookkeeping unchanged. -/
  | writePanic (s : RwState) (h : s.writeLocked = true ∨ s.numReaders ≠ 0) :
      RwStep s s
  /-- `try_read`/`try_write` returning `None`: no state change. -/
  | tryFail (s : RwState) : RwStep s s
  /-- Drop of a `RwLockReadGuard`: the inner `sys::ReadGuard` drop
  decrements `num_readers` and unlocks the native lock; the poison flag
  is not touched (`RwLockReadGuard` has no poison token). -/
  | dropRead (s : RwState) (h : 0 < s.liveRead) :
      RwStep s { s with numReaders := s.numReaders - 1,
                        liveRead := s.liveRead - 1 }
  /-- Drop of a `RwLockWriteGuard`: `poison.done` runs with the token of the guard, then the inner `sys::WriteGuard` drop clears `write_locked`
  and unlocks the native lock. -/
  | dropWrite (s : RwState) (tok : PoisonGuard) (now : Bool)
      (h : s.liveWrite = some tok) :
      RwStep s { s with writeLocked := false,
                        liveWrite := none,
                        poison := Flag.done s.poison tok now }

/-- States reachable from the freshly initialized lock. -/
inductive RwReachable : RwState → Prop where
  | init : RwReachable RwState.initial
  | step {s t : RwState} (hr : RwReachable s) (hs : RwStep s t) :
      RwReachable t

/-- The inductive invariant of the bookkeeping: the reader count equals
the number of live read guards, a write guard exists exactly when
`write_locked` is set, and a set `write_locked` excludes readers. -/
def RwInv (s : RwState) : Prop :=
  s.numReaders = (s.liveRead : Int) ∧
  (s.writeLocked = true ↔ s.liveWrite.isSome) ∧
  (s.writeLocked = true → s.numReaders = 0)

theorem rwInv_initial : RwInv RwState.initial := by
  refine ⟨rfl, ?_, ?_⟩ <;> simp [RwState.initial]

theorem rwInv_step {s t : RwState} (hinv : RwInv s) (h : RwStep s t) :
    RwInv t := by
  obtain ⟨hcount, hguard, hmx⟩ := hinv
  cases h with
  | readOk now h =>
      refine ⟨by push_cast; omega, ?_, ?_⟩
      · simpa using hguard
      · intro hw; simp_all
  | readPanic h => exact ⟨hcount, hguard, hmx⟩
  | writeOk now h₁ h₂ =>
      refine ⟨hcount, by simp, ?_⟩
      intro _; simpa using h₂
  | writePanic h => exact ⟨hcount, hguard, hmx⟩
  | tryFail => exact ⟨hcount, hguard, hmx⟩
  | dropRead h =>
      refine ⟨?_, by simpa using hguard, ?_⟩
      · have h1 : 1 ≤ s.liveRead := h
        push_cast [Nat.cast_sub h1] at hcount ⊢
        omega
      · intro hw
        exfalso
        have := hmx hw
        omega
  | dropWrite tok now h => exact ⟨hcount, by simp, by simp⟩

theorem rwInv_reachable {s : RwState} (h : RwReachable s) : RwInv s := by
  induction h with
  | init => exact rwInv_initial
  | step _ hs ih => exact rwInv_step ih hs

/-! ## Public wrappers (`src/mutex.rs`, `src/rwlock.rs`)

Each acquisition routes the poison flag through `Flag::borrow` and
`poison::map_result`; the `try_*` forms additionally surface a `None`
from the backend as `TryLockError::WouldBlock` (and a `PoisonError`
as `TryLockError::Poisoned` through the `?` operator). -/

/-- `std::sync::TryLockError`. -/
inductive TryLockError (α : Type) where
  | wouldBlock
  | poisonedErr (a : α)
  deriving DecidableEq, Repr

/-- `std::sync::TryLockResult<T>`. -/
def TryLockResult (α : Type) : Type := Except (TryLockError α) α

/-- A `MutexGuard` as far as poisoning is concerned: the token stored in
the guard. -/
structure MutexGuardM where
  poison : PoisonGuard
  deriving DecidableEq, Repr

/-- `Mutex::lock`, after the backend `lock` returned its guard:
`poison::map_result(self.poison.borrow(), ...)`. -/
def mutexLock (flag : Bool) (panickingNow : Bool) : LockResult MutexGuardM :=
  (Flag.borrow flag panickingNow).mapResult fun p => ⟨p⟩

/-- `Mutex::try_lock`: the backend result (`none` = unavailable), then
the same poison route, with `PoisonError` re-wrapped by `?`. -/
def mutexTryLock (backend : Option Unit) (flag : Bool) (panickingNow : Bool) :
    TryLockResult MutexGuardM :=
  match backend with
  | none => .error .wouldBlock
  | some _ =>
      match (Flag.borrow flag panickingNow).mapResult (fun p => (⟨p⟩ : MutexGuardM)) with
      | .ok g => .ok g
      | .poisoned g => .error (.poisonedErr g)

/-- `Mutex::into_inner`: destructures the mutex and routes the value
through the poison flag. -/
def mutexIntoInner {α : Type} (flag : Bool) (panickingNow : Bool) (value : α) :
    LockResult α :=
  (Flag.borrow flag panickingNow).mapResult fun _ => value

/-- `Mutex::get_mut`: same poison route around the mutable borrow. -/
def mutexGetMut {α : Type} (flag : Bool) (panickingNow : Bool) (value : α) :
    LockResult α :=
  (Flag.borrow flag panickingNow).mapResult fun _ => value

/-- `RwLock::read`, after the backend `read` returned its guard: the
read guard stores no poison token. -/
def rwlockRead {α : Type} (flag : Bool) (panickingNow : Bool) (value : α) :
    LockResult α :=
  (Flag.borrow flag panickingNow).mapResult fun _ => value

/-- `RwLock::write`, after the backend `write` returned its guard: the
write guard stores the poison token. -/
def rwlockWrite (flag : Bool) (panickingNow : Bool) : LockResult MutexGuardM :=
  (Flag.borrow flag panickingNow).mapResult fun p => ⟨p⟩

/-- `RwLock::try_write`: backend result, then the poison route with
`PoisonError` re-wrapped by `?`. -/
def rwlockTryWrite (backend : Option Unit) (flag : Bool) (panickingNow : Bool) :
    TryLockResult MutexGuardM :=
  match backend with
  | none => .error .wouldBlock
  | some _ =>
      match (Flag.borrow flag panickingNow).mapResult (fun p => (⟨p⟩ : MutexGuardM)) with
      | .ok g => .ok g
      | .poisoned g => .error (.poisonedErr g)

/-! ## Barrier (`src/barrier.rs`)

`Barrier::wait` runs under the internal mutex, so the `N` arrivals of a
round are serialized: each is one pure transition on the protected
`BarrierState { count, generation_id }`.  `generation_id` is a `usize`
advanced with `wrapping_add(1)`, modelled as `Nat` mod `2 ^ 64`. -/

/-- `usize::MAX + 1` on a 64-bit target. -/
def USIZE : Nat := 2 ^ 64

/-- The `BarrierState` protected by the mutex of the barrier. -/
structure BarrierState where
  count : Nat
  generation_id : Nat
  deriving DecidableEq, Repr

/-- `usize::wrapping_add(1)`. -/
def wrappingAdd1 (g : Nat) : Nat := (g + 1) % USIZE

/-- One `Barrier::wait` arrival under the lock, for a barrier with
`num_threads = N`: increment `count`; if still below `N` the caller
will block (result `false` after the wait loop exits), otherwise reset
`count`, advance the generation and return `true` (the leader). -/
def barrierArrive (N : Nat) (s : BarrierState) : BarrierState × Bool :=
  let c := s.count + 1
  if c < N then (⟨c, s.generation_id⟩, false)
  else (⟨0, wrappingAdd1 s.generation_id⟩, true)

/-- `k` serialized arrivals, collecting the `is_leader` result of each call
in order. -/
def barrierArrivals (N : Nat) : Nat → BarrierState → List Bool × BarrierState
  | 0, s => ([], s)
  | k + 1, s =>
      let (s', b) := barrierArrive N s
      let (bs, s'') := barrierArrivals N k s'
      (b :: bs, s'')

/-- The condition of the wait loop in `Barrier::wait`: a non-leader that
entered the round with generation `localGen` keeps waiting exactly while
`localGen == generation_id && count < N`. -/
def waiterBlocked (localGen : Nat) (s : BarrierState) (N : Nat) : Bool :=
  localGen = s.generation_id ∧ s.count < N

/-! ## Lazy-init guard (`src/sys_common/init_assert.rs`)

The tri-state `InitAssert<T>`.  `init_with` swaps the state to
`INIT_IN_PROGRESS` first, asserts the previous state was `UNINIT`
(panicking otherwise, with the state already left at in-progress), runs
the factory (which may itself panic: `factory = none`), then stores
`INIT`.  `get`/`get_ref` assert `INIT`; `Drop` runs the destructor of the wrapped value exactly when the state is `INIT`. -/

/-- The tri-state discipline: `UNINIT = 0`, `INIT_IN_PROGRESS = -1`,
`INIT = 1`. -/
inductive InitState where
  | uninit
  | initInProgress
  | initialized
  deriving DecidableEq, Repr

/-- An `InitAssert<T>`: the `state` atomic plus the `MaybeUninit`
storage (`none` = not (fully) written). -/
structure InitAssert (α : Type) where
  state : InitState
  data : Option α
  deriving DecidableEq, Repr

/-- `InitAssert::new`. -/
def InitAssert.new (α : Type) : InitAssert α := ⟨.uninit, none⟩

/-- Outcome of a call to `init`/`init_with`: either the call returned
normally or it panicked, in both cases with the resulting state of the
guard. -/
inductive InitResult (α : Type) where
  | ok (a : InitAssert α)
  | panicked (a : InitAssert α)
  deriving DecidableEq, Repr

namespace InitResult

/-- The state of the guard after the call, whichever way it exited. -/
def after : InitResult α → InitAssert α
  | .ok a => a
  | .panicked a => a

/-- Whether the call panicked. -/
def isPanic : InitResult α → Bool
  | .ok _ => false
  | .panicked _ => true

end InitResult

/-- `InitAssert::init_with` (and `init`, which wraps it):
`state.swap(INIT_IN_PROGRESS)` leaves the state at in-progress before
the assertion fires, so a call in the wrong state panics with the state
stuck at `INIT_IN_PROGRESS`; a panicking factory (`factory = none`)
leaves it there too; only the successful path stores `INIT`. -/
def InitAssert.initWith (s : InitAssert α) (factory : Option α) : InitResult α :=
  if s.state ≠ .uninit then .panicked ⟨.initInProgress, s.data⟩
  else
    match factory with
    | none => .panicked ⟨.initInProgress, s.data⟩
    | some v => .ok ⟨.initialized, some v⟩

/-- `InitAssert::get`/`get_ref`: `none` models the assertion failure
(panic); `some` is the stored value the returned pointer/reference
designates. -/
def InitAssert.getRef (s : InitAssert α) : Option α :=
  if s.state = .initialized then s.data else none

/-- `Drop for InitAssert`: `drop_in_place` runs exactly when the state
is `INIT`. -/
def InitAssert.dropRunsDestructor (s : InitAssert α) : Bool :=
  s.state = .initialized

/-- Guards reachable by any sequence of `init`/`init_with` calls from
`InitAssert::new` (`get`/`get_ref` do not change the state). -/
inductive InitReachable {α : Type} : InitAssert α → Prop where
  | new : InitReachable (InitAssert.new α)
  | step {s : InitAssert α} (f : Option α) (hr : InitReachable s) :
      InitReachable (s.initWith f).after

/-! ## Condition variable timeout loop (`src/condvar.rs`)

`Condvar::wait_timeout_while` re-checks the predicate first, then
compares the cumulative elapsed time (`start.elapsed()`) against the
single duration `dur` given at entry (`dur.checked_sub(elapsed)`), and
waits for the remainder.  Each wakeup (notification or spurious) is an
event `(d, t)`: the wait consumed `d` additional time units and the
predicate sees state `t` on re-acquisition.  `none` models a call still
blocked when the event trace runs out. -/

/-- `Condvar::wait_timeout_while`, driven by a trace of wakeup events.
`elapsed` is `start.elapsed()` at the top of the loop iteration.
Returns the final guard state, the `WaitTimeoutResult` flag, and the
cumulative elapsed time at return; `none` if the trace is exhausted
while the call is still waiting. -/
def waitTimeoutWhile {α : Type} (cond : α → Bool) (dur : Nat) :
    List (Nat × α) → Nat → α → Option (α × Bool × Nat)
  | events, elapsed, t =>
      if cond t = false then some (t, false, elapsed)
      else if dur < elapsed then some (t, true, elapsed)
      else
        match events with
        | [] => none
        | (d, t') :: rest => waitTimeoutWhile cond dur rest (elapsed + d) t'

/-! ## Claim theorems -/

/-- Claim C1 (code bug, failing evaluation): the claim says
`Mutex::try_lock` is non-blocking and returns `WouldBlock` when the
mutex is held by another thread.  `sys::unix::Mutex::try_lock` as
written calls `pthread_mutex_lock`, so on a mutex held by another
thread the call blocks until the holder releases and then returns a
guard — it never returns `WouldBlock`.  The spec-modelled variant
(`pthread_mutex_trylock`) returns `WouldBlock` there, and the two
implementations agree on a free mutex. -/
theorem c1_unix_try_lock_is_blocking :
    sysMutexTryLock true = SysTryLock.blocks ∧
    sysMutexTryLock true ≠ SysTryLock.wouldBlock ∧
    specMutexTryLock true = SysTryLock.wouldBlock ∧
    sysMutexTryLock false = SysTryLock.guard ∧
    specMutexTryLock false = SysTryLock.guard := by
  refine ⟨rfl, ?_, ?_, rfl, rfl⟩ <;> decide

/-- Claim C2: on the blocking acquisitions of the unix rwlock backend, a
same-thread escalation detected by the secondary check is turned into a
panic, never a returned guard: when the native shared lock was granted
(`r = 0`) but `write_locked` is set, `read` releases the native lock
and panics with the deadlock error; when the native exclusive lock was
granted but `write_locked` is set or the reader count is nonzero,
`write` releases the native lock and panics with the deadlock error. -/
theorem c2_blocking_escalation_is_fatal (r : Int) (wl : Bool) (nr : Int)
    (hr : r = 0) :
    (wl = true → rwRead r wl = ReadOutcome.panicDeadlock true) ∧
    (wl = true ∨ nr ≠ 0 → rwWrite r wl nr = WriteOutcome.panicDeadlock true) := by
  subst hr
  constructor
  · intro hwl
    subst hwl
    simp [rwRead, EAGAIN, EDEADLK]
  · intro hconf
    rcases hconf with h | h
    · subst h
      simp [rwWrite, EDEADLK]
    · simp [rwWrite, EDEADLK, h]

/-- Witness for C2 at `r = 0`, `write_locked = true`, one reader. -/
theorem c2_blocking_escalation_is_fatal_witness :
    rwRead 0 true = ReadOutcome.panicDeadlock true ∧
    rwWrite 0 true 1 = WriteOutcome.panicDeadlock true :=
  ⟨(c2_blocking_escalation_is_fatal 0 true 1 rfl).1 rfl,
   (c2_blocking_escalation_is_fatal 0 true 1 rfl).2 (Or.inl rfl)⟩

/-- Claim C7: with a live read guard the reader count is nonzero, and
then `try_write` never returns a guard and returns `None` (surfaced as
`WouldBlock` by the public wrapper) on every native return code; it
cannot panic (every outcome is a guard or `WouldBlock`); when the
native acquisition had succeeded (`r = 0`) the failed secondary check
undoes it by unlocking before returning; and on a granted native lock
the `try_*` forms return a guard exactly when the blocking forms do
(same secondary checks).  The public wrapper turns the `None` into
`TryLockError::WouldBlock`. -/
theorem c7_try_write_would_block (r : Int) (wl : Bool) (nr : Int)
    (hnr : nr ≠ 0) :
    rwTryWrite r wl nr ≠ TryOutcome.guard ∧
    (r = 0 → rwTryWrite r wl nr = TryOutcome.wouldBlock true) ∧
    (r ≠ 0 → rwTryWrite r wl nr = TryOutcome.wouldBlock false) ∧
    (∀ wl2 nr2, rwTryWrite 0 wl2 nr2 = TryOutcome.guard ↔
      rwWrite 0 wl2 nr2 = WriteOutcome.guard) ∧
    (∀ wl2, rwTryRead 0 wl2 = TryOutcome.guard ↔
      rwRead 0 wl2 = ReadOutcome.guard) ∧
    (∀ r2 wl2 nr2, rwTryWrite r2 wl2 nr2 = TryOutcome.guard ∨
      ∃ b, rwTryWrite r2 wl2 nr2 = TryOutcome.wouldBlock b) ∧
    (∀ flag now, rwlockTryWrite none flag now =
      Except.error TryLockError.wouldBlock) := by
  refine ⟨?_, ?_, ?_, ?_, ?_, ?_, ?_⟩
  · intro h
    simp only [rwTryWrite] at h
    by_cases hr : r = 0 <;> simp [hr] at h
    exact absurd h.2 hnr
  · intro hr
    subst hr
    simp [rwTryWrite, hnr]
  · intro hr
    simp [rwTryWrite, hr]
  · intro wl2 nr2
    by_cases h1 : wl2 = true <;> by_cases h2 : nr2 = 0 <;>
      simp [rwTryWrite, rwWrite, EDEADLK, h1, h2]
  · intro wl2
    by_cases h1 : wl2 = true <;>
      simp [rwTryRead, rwRead, EAGAIN, EDEADLK, h1]
  · intro r2 wl2 nr2
    simp only [rwTryWrite]
    by_cases hr : r2 = 0 <;> by_cases hc : wl2 = true ∨ nr2 ≠ 0 <;>
      simp [hr, hc]
  · intro flag now
    rfl

/-- Witness for C7 with one live reader and a conforming (`r = EBUSY`)
and a diverging (`r = 0`) native return code. -/
theorem c7_try_write_would_block_witness :
    rwTryWrite 0 false 1 = TryOutcome.wouldBlock true ∧
    rwTryWrite EBUSY false 1 = TryOutcome.wouldBlock false :=
  ⟨(c7_try_write_would_block 0 false 1 (by decide)).2.1 rfl,
   (c7_try_write_would_block EBUSY false 1 (by decide)).2.2.1 (by decide)⟩

/-- Claim C3: the release of an exclusive/write guard sets the poison
flag if and only if the releasing thread is unwinding at release time
and was not unwinding at acquisition time (a set flag stays set); every
step of the reader-writer lock that releases a read guard leaves the
poison flag unchanged; and no step of the lock ever clears a set poison
flag. -/
theorem c3_poison_flag_discipline :
    (∀ (flag : Bool) (g : PoisonGuard) (now : Bool),
      Flag.done flag g now = true ↔
        flag = true ∨ (g.panicking = false ∧ now = true)) ∧
    (∀ s t : RwState, RwStep s t → t.liveRead < s.liveRead →
      t.poison = s.poison) ∧
    (∀ s t : RwState, RwStep s t → s.poison = true → t.poison = true) := by
  refine ⟨?_, ?_, ?_⟩
  · intro flag g now
    cases flag <;> cases now <;> cases g with
    | mk p => cases p <;> simp [Flag.done]
  · intro s t hstep hlt
    cases hstep with
    | readOk now h => simp at hlt
    | readPanic h => rfl
    | writeOk now h₁ h₂ => rfl
    | writePanic h => rfl
    | tryFail => rfl
    | dropRead h => rfl
    | dropWrite tok now h => simp at hlt
  · intro s t hstep hp
    cases hstep with
    | readOk now h => exact hp
    | readPanic h => exact hp
    | writeOk now h₁ h₂ => exact hp
    | writePanic h => exact hp
    | tryFail => exact hp
    | dropRead h => exact hp
    | dropWrite tok now h =>
        simp only [Flag.done, hp]
        split <;> rfl

/-- Witness for C3: a newly panicking release sets the flag; a read
release from a one-reader state leaves a set flag set; a write release
never clears a set flag. -/
theorem c3_poison_flag_discipline_witness :
    Flag.done false ⟨false⟩ true = true ∧
    ({ writeLocked := false, numReaders := 0, poison := true, liveRead := 0,
       liveWrite := none } : RwState).poison = true := by
  constructor
  · exact (c3_poison_flag_discipline.1 false ⟨false⟩ true).mpr
      (Or.inr ⟨rfl, rfl⟩)
  · exact c3_poison_flag_discipline.2.2
      { writeLocked := false, numReaders := 1, poison := true, liveRead := 1,
        liveWrite := none }
      { writeLocked := false, numReaders := 0, poison := true, liveRead := 0,
        liveWrite := none }
      (RwStep.dropRead _ (by decide)) rfl

/-- Claim C4: poisoning never denies access.  For `lock`, `try_lock` on
an available mutex, `read`, `write`, `try_write` on an available lock,
`into_inner` and `get_mut`, the result is tagged `Poisoned` exactly when
the poison flag is set at acquisition time, and the error payload is the
same guard or value a successful call returns. -/
theorem c4_poison_never_denies {α : Type} (flag now : Bool) (v : α) :
    ((mutexLock flag now).isPoisoned = flag ∧
      (mutexLock flag now).payload = ⟨⟨now⟩⟩) ∧
    (mutexTryLock (some ()) flag now =
      if flag then Except.error (TryLockError.poisonedErr ⟨⟨now⟩⟩)
      else Except.ok ⟨⟨now⟩⟩) ∧
    ((mutexIntoInner flag now v).isPoisoned = flag ∧
      (mutexIntoInner flag now v).payload = v) ∧
    ((mutexGetMut flag now v).isPoisoned = flag ∧
      (mutexGetMut flag now v).payload = v) ∧
    ((rwlockRead flag now v).isPoisoned = flag ∧
      (rwlockRead flag now v).payload = v) ∧
    ((rwlockWrite flag now).isPoisoned = flag ∧
      (rwlockWrite flag now).payload = ⟨⟨now⟩⟩) ∧
    (rwlockTryWrite (some ()) flag now =
      if flag then Except.error (TryLockError.poisonedErr ⟨⟨now⟩⟩)
      else Except.ok ⟨⟨now⟩⟩) := by
  cases flag <;>
    simp [mutexLock, mutexTryLock, mutexIntoInner, mutexGetMut, rwlockRead,
      rwlockWrite, rwlockTryWrite, Flag.borrow, LockResult.mapResult,
      LockResult.isPoisoned, LockResult.payload]

/-- Claim C5: in every reachable state of the reader-writer lock, the
writer-held flag and a positive reader count are mutually exclusive,
the reader count never goes negative, and it equals the number of live
read guards (every decrement on read-guard release is matched by a
prior increment on read acquisition). -/
theorem c5_reader_writer_accounting (s : RwState) (h : RwReachable s) :
    ¬(s.writeLocked = true ∧ 0 < s.numReaders) ∧
    0 ≤ s.numReaders ∧
    s.numReaders = (s.liveRead : Int) := by
  obtain ⟨hcount, _, hmx⟩ := rwInv_reachable h
  refine ⟨?_, ?_, hcount⟩
  · rintro ⟨hw, hpos⟩
    have := hmx hw
    omega
  · rw [hcount]
    exact_mod_cast Nat.zero_le _

/-- Witness for C5 at the state reached by one read acquisition. -/
theorem c5_reader_writer_accounting_witness :
    ¬(({ writeLocked := false, numReaders := 1, poison := false,
         liveRead := 1, liveWrite := none } : RwState).writeLocked = true ∧
      0 < ({ writeLocked := false, numReaders := 1, poison := false,
             liveRead := 1, liveWrite := none } : RwState).numReaders) ∧
    0 ≤ ({ writeLocked := false, numReaders := 1, poison := false,
           liveRead := 1, liveWrite := none } : RwState).numReaders ∧
    ({ writeLocked := false, numReaders := 1, poison := false,
       liveRead := 1, liveWrite := none } : RwState).numReaders =
      ((({ writeLocked := false, numReaders := 1, poison := false,
           liveRead := 1, liveWrite := none } : RwState).liveRead : Nat) : Int) :=
  c5_reader_writer_accounting _
    (RwReachable.step RwReachable.init (RwStep.readOk RwState.initial false rfl))

/-- Helper for C6: from a state with `N - j` already arrived (same
generation `g`), the remaining `j` arrivals return `j - 1` non-leader
results followed by the one leader, and leave the barrier reset to
count 0 with the generation advanced. -/
theorem barrier_round_from (N g : Nat) :
    ∀ j, 1 ≤ j → j ≤ N →
      barrierArrivals N j ⟨N - j, g⟩ =
        (List.replicate (j - 1) false ++ [true],
          ⟨0, wrappingAdd1 g⟩) := by
  intro j
  induction j with
  | zero => intro h; omega
  | succ j ih =>
      intro _ hle
      rcases Nat.eq_zero_or_pos j with hj | hj
      · subst hj
        have hN1 : N - 1 + 1 = N := by omega
        simp only [barrierArrivals, barrierArrive, hN1, Nat.lt_irrefl,
          if_false]
        rfl
      · have hlt : N - (j + 1) + 1 = N - j := by omega
        have hNj : N - j < N := by omega
        have hrec := ih hj (by omega)
        have hrepl : j - 1 + 1 = j := by omega
        simp only [barrierArrivals, barrierArrive, hlt, hNj, if_true]
        rw [hrec]
        have : List.replicate j false =
            false :: List.replicate (j - 1) false := by
          conv_lhs => rw [← hrepl]
          rfl
        simp [this]

/-- Claim C6: for a barrier with `num_threads = N` (`N ≥ 1`) and a round
starting at count 0 and generation `g`, the `N` serialized `wait` calls
return exactly one leader — the last arrival, whose increment reaches
`N` — with all earlier calls non-leaders; the round leaves the barrier
at count 0 with the generation advanced by one (wrapping mod `2 ^ 64`),
which differs from `g`; every non-leader is blocked by the wait-loop
condition (same generation, count below `N`) while the round is
incomplete, and the condition turns false once the generation changes
or the count reaches `N`, so the barrier is immediately reusable. -/
theorem c6_barrier_round (N g : Nat) (hN : 1 ≤ N) (hg : g < USIZE) :
    (barrierArrivals N N ⟨0, g⟩).1 =
      List.replicate (N - 1) false ++ [true] ∧
    (barrierArrivals N N ⟨0, g⟩).1.count true = 1 ∧
    (barrierArrivals N N ⟨0, g⟩).2 = ⟨0, wrappingAdd1 g⟩ ∧
    wrappingAdd1 g ≠ g ∧
    (∀ k, k < N → waiterBlocked g ⟨k, g⟩ N = true) ∧
    waiterBlocked g ⟨N, g⟩ N = false ∧
    waiterBlocked g ⟨0, wrappingAdd1 g⟩ N = false := by
  have hU : USIZE = 18446744073709551616 := by norm_num [USIZE]
  have key := barrier_round_from N g N hN le_rfl
  rw [Nat.sub_self] at key
  have hne : wrappingAdd1 g ≠ g := by
    by_cases h : g + 1 < USIZE
    · rw [wrappingAdd1, Nat.mod_eq_of_lt h]
      omega
    · have hgU : g + 1 = USIZE := by omega
      rw [wrappingAdd1, hgU, Nat.mod_self]
      omega
  refine ⟨by rw [key], ?_, by rw [key], hne, ?_, ?_, ?_⟩
  · rw [key]
    simp [List.count_replicate]
  · intro k hk
    simp [waiterBlocked, hk]
  · simp [waiterBlocked]
  · have hne2 : ¬(g = wrappingAdd1 g) := fun h => hne h.symm
    simp [waiterBlocked, hne2]

/-- Witness for C6 at `N = 3`, generation 7: the three calls return
`[false, false, true]` and the barrier is reset to count 0,
generation 8. -/
theorem c6_barrier_round_witness :
    (barrierArrivals 3 3 ⟨0, 7⟩).1 = [false, false, true] ∧
    (barrierArrivals 3 3 ⟨0, 7⟩).2 = ⟨0, wrappingAdd1 7⟩ :=
  ⟨(c6_barrier_round 3 7 (by decide) (by norm_num [USIZE])).1,
   (c6_barrier_round 3 7 (by decide) (by norm_num [USIZE])).2.2.1⟩

/-- Helper for C8: in any reachable guard, the `Initialized` state
implies the storage holds a value. -/
theorem initReachable_data {α : Type} {s : InitAssert α}
    (h : InitReachable s) :
    s.state = InitState.initialized → ∃ v, s.data = some v := by
  induction h with
  | new =>
      intro h
      simp [InitAssert.new] at h
  | step f hr ih =>
      rename_i s
      intro hst
      by_cases hs : s.state = InitState.uninit
      · cases f with
        | none =>
            simp [InitAssert.initWith, hs, InitResult.after] at hst
        | some v =>
            exact ⟨v, by simp [InitAssert.initWith, hs, InitResult.after]⟩
      · simp [InitAssert.initWith, hs, InitResult.after] at hst

/-- Claim C8: the tri-state discipline of `InitAssert`.  `init_with`
panics whenever the state is not `Uninitialized` (leaving it at
`Initializing`); a returning `init_with` happened from `Uninitialized`,
ends at `Initialized` and stored the factory value — and since no call
ever returns the state to `Uninitialized`, this happens at most once;
`get`/`get_ref` returns the stored value when the state is
`Initialized` (in any reachable guard) and panics otherwise; and drop
runs the destructor of the wrapped value exactly when the state is
`Initialized`. -/
theorem c8_init_assert_tristate {α : Type} :
    (∀ (s : InitAssert α) (f : Option α), s.state ≠ InitState.uninit →
      (s.initWith f).isPanic = true ∧
      (s.initWith f).after.state = InitState.initInProgress) ∧
    (∀ (s : InitAssert α) (f : Option α) (t : InitAssert α),
      s.initWith f = InitResult.ok t →
      s.state = InitState.uninit ∧ t.state = InitState.initialized ∧
      ∃ v, f = some v ∧ t.data = some v) ∧
    (∀ (s : InitAssert α) (f : Option α),
      (s.initWith f).after.state ≠ InitState.uninit) ∧
    (∀ s : InitAssert α, InitReachable s →
      s.state = InitState.initialized → ∃ v, s.getRef = some v) ∧
    (∀ s : InitAssert α, s.state ≠ InitState.initialized →
      s.getRef = none) ∧
    (∀ s : InitAssert α,
      s.dropRunsDestructor = true ↔ s.state = InitState.initialized) := by
  refine ⟨?_, ?_, ?_, ?_, ?_, ?_⟩
  · intro s f hs
    simp [InitAssert.initWith, hs, InitResult.isPanic, InitResult.after]
  · intro s f t hok
    by_cases hs : s.state = InitState.uninit
    · cases f with
      | none => simp [InitAssert.initWith, hs] at hok
      | some v =>
          simp only [InitAssert.initWith, hs] at hok
          simp at hok
          exact ⟨hs, by rw [← hok], v, rfl, by rw [← hok]⟩
    · simp [InitAssert.initWith, hs] at hok
  · intro s f
    by_cases hs : s.state = InitState.uninit
    · cases f <;> simp [InitAssert.initWith, hs, InitResult.after]
    · simp [InitAssert.initWith, hs, InitResult.after]
  · intro s hr hst
    obtain ⟨v, hv⟩ := initReachable_data hr hst
    exact ⟨v, by simp [InitAssert.getRef, hst, hv]⟩
  · intro s hs
    simp [InitAssert.getRef, hs]
  · intro s
    simp [InitAssert.dropRunsDestructor]

/-- Witness for C8: a second `init` on an already-initialized guard
panics and leaves the state at `Initializing`; a successful `init` from
the fresh guard ends `Initialized` with the value stored and readable;
drop on the fresh guard runs no destructor. -/
theorem c8_init_assert_tristate_witness :
    ((⟨InitState.initialized, some 5⟩ : InitAssert Nat).initWith
      (some 3)).isPanic = true ∧
    ((⟨InitState.uninit, none⟩ : InitAssert Nat).state = InitState.uninit ∧
      (⟨InitState.initialized, some 7⟩ : InitAssert Nat).state =
        InitState.initialized ∧
      ∃ v, some 7 = some v ∧
        (⟨InitState.initialized, some 7⟩ : InitAssert Nat).data = some v) ∧
    (⟨InitState.initInProgress, none⟩ : InitAssert Nat).getRef = none :=
  ⟨((@c8_init_assert_tristate Nat).1 ⟨InitState.initialized, some 5⟩ (some 3)
      (by decide)).1,
   (@c8_init_assert_tristate Nat).2.1 ⟨InitState.uninit, none⟩ (some 7)
      ⟨InitState.initialized, some 7⟩ rfl,
   (@c8_init_assert_tristate Nat).2.2.2.2.1 ⟨InitState.initInProgress, none⟩
      (by decide)⟩

/-- Claim C10: a panicking `init`/`init_with` — wrong state or panicking
factory — leaves the state permanently at `Initializing`: every
subsequent `init` call panics again and leaves it there, `get`/`get_ref`
panics, and drop runs no destructor (so the storage is never read and
never double-dropped; a value stored by a prior successful
initialization is leaked). -/
theorem c10_failed_init_is_sticky {α : Type} (s : InitAssert α)
    (f : Option α) (hfail : (s.initWith f).isPanic = true) :
    (s.initWith f).after.state = InitState.initInProgress ∧
    (∀ g : Option α,
      ((s.initWith f).after.initWith g).isPanic = true ∧
      ((s.initWith f).after.initWith g).after.state =
        InitState.initInProgress) ∧
    (s.initWith f).after.getRef = none ∧
    (s.initWith f).after.dropRunsDestructor = false := by
  have hafter : (s.initWith f).after = ⟨InitState.initInProgress, s.data⟩ := by
    by_cases hs : s.state = InitState.uninit
    · cases f with
      | none => simp [InitAssert.initWith, hs, InitResult.after]
      | some v => simp [InitAssert.initWith, hs, InitResult.isPanic] at hfail
    · simp [InitAssert.initWith, hs, InitResult.after]
  rw [hafter]
  refine ⟨rfl, ?_, rfl, rfl⟩
  intro g
  simp [InitAssert.initWith, InitResult.isPanic, InitResult.after]

/-- Witness for C10: a second `init` attempt after a successful one
(state `Initialized`, value 5 stored) panics; afterwards the state is
stuck at `Initializing`, `get` panics and drop runs no destructor. -/
theorem c10_failed_init_is_sticky_witness :
    ((⟨InitState.initialized, some 5⟩ : InitAssert Nat).initWith
      (some 3)).after.state = InitState.initInProgress ∧
    ((⟨InitState.initialized, some 5⟩ : InitAssert Nat).initWith
      (some 3)).after.getRef = none ∧
    ((⟨InitState.initialized, some 5⟩ : InitAssert Nat).initWith
      (some 3)).after.dropRunsDestructor = false :=
  ⟨(c10_failed_init_is_sticky ⟨InitState.initialized, some 5⟩ (some 3)
      (by decide)).1,
   (c10_failed_init_is_sticky ⟨InitState.initialized, some 5⟩ (some 3)
      (by decide)).2.2.1,
   (c10_failed_init_is_sticky ⟨InitState.initialized, some 5⟩ (some 3)
      (by decide)).2.2.2⟩

/-- Helper for C9: every returning run of the timeout loop either
reports no timeout with the predicate false, or reports a timeout with
the predicate still true and the cumulative elapsed time past the
duration. -/
theorem waitTimeoutWhile_sound {α : Type} (cond : α → Bool) (dur : Nat) :
    ∀ (events : List (Nat × α)) (elapsed : Nat) (t t' : α) (b : Bool)
      (e : Nat),
      waitTimeoutWhile cond dur events elapsed t = some (t', b, e) →
      (b = false ∧ cond t' = false) ∨
        (b = true ∧ cond t' = true ∧ dur < e) := by
  intro events
  induction events with
  | nil =>
      intro elapsed t t' b e h
      rw [waitTimeoutWhile] at h
      by_cases hc : cond t = false
      · simp only [hc, if_true] at h
        injection h with h
        have h1 : t = t' := congrArg Prod.fst h
        have h2 : false = b := congrArg (fun p => p.2.1) h
        subst h1
        exact Or.inl ⟨h2.symm, hc⟩
      · by_cases ht : dur < elapsed
        · simp only [hc, if_false, ht, if_true] at h
          injection h with h
          have h1 : t = t' := congrArg Prod.fst h
          have h2 : true = b := congrArg (fun p => p.2.1) h
          have h3 : elapsed = e := congrArg (fun p => p.2.2) h
          subst h1; subst h3
          exact Or.inr ⟨h2.symm, by simpa using hc, ht⟩
        · simp [hc, ht] at h
  | cons ev rest ih =>
      intro elapsed t t' b e h
      rw [waitTimeoutWhile] at h
      by_cases hc : cond t = false
      · simp only [hc, if_true] at h
        injection h with h
        have h1 : t = t' := congrArg Prod.fst h
        have h2 : false = b := congrArg (fun p => p.2.1) h
        subst h1
        exact Or.inl ⟨h2.symm, hc⟩
      · by_cases ht : dur < elapsed
        · simp only [hc, if_false, ht, if_true] at h
          injection h with h
          have h1 : t = t' := congrArg Prod.fst h
          have h2 : true = b := congrArg (fun p => p.2.1) h
          have h3 : elapsed = e := congrArg (fun p => p.2.2) h
          subst h1; subst h3
          exact Or.inr ⟨h2.symm, by simpa using hc, ht⟩
        · simp only [hc, if_false, ht] at h
          exact ih (elapsed + ev.1) ev.2 t' b e h

/-- Claim C9: `wait_timeout_while` returns immediately with
`timed_out = false` and the unchanged guard when the predicate is false
on entry (no event is consumed and no time passes); any run that
returns `timed_out = false` does so with the predicate false; and any
run that returns `timed_out = true` does so with the predicate still
true and the cumulative elapsed time (tracked across all wakeups
against the single duration given at entry) past the duration. -/
theorem c9_wait_timeout_while {α : Type} (cond : α → Bool) (dur : Nat)
    (events : List (Nat × α)) (t : α) :
    (cond t = false →
      waitTimeoutWhile cond dur events 0 t = some (t, false, 0)) ∧
    (∀ (t' : α) (b : Bool) (e : Nat),
      waitTimeoutWhile cond dur events 0 t = some (t', b, e) →
      (b = false → cond t' = false) ∧
      (b = true → cond t' = true ∧ dur < e)) := by
  constructor
  · intro hc
    cases events <;> (rw [waitTimeoutWhile]; simp [hc])
  · intro t' b e h
    rcases waitTimeoutWhile_sound cond dur events 0 t t' b e h with
      ⟨hb, hc⟩ | ⟨hb, hc, he⟩
    · subst hb
      exact ⟨fun _ => hc, fun hb => by simp at hb⟩
    · subst hb
      exact ⟨fun hb => by simp at hb, fun _ => ⟨hc, he⟩⟩

/-- Witness for C9: a predicate false at entry makes the call return at
once with no timeout, the guard unchanged and zero elapsed time. -/
theorem c9_wait_timeout_while_witness :
    waitTimeoutWhile (fun _ : Nat => false) 5 [(3, 1)] 0 0 =
      some (0, false, 0) :=
  (c9_wait_timeout_while (fun _ : Nat => false) 5 [(3, 1)] 0).1 rfl

end PinnedSync
